import Mathlib

/-!
Verification of `cadima_pdf_finder.py`: a shallow embedding of the
reference extractor (`read_references`), the resolver chain and run
orchestrator (`main`), and the fetcher/validator (`download_pdf`),
together with theorems settling the specification's claims.

Conventions of the embedding:
* spreadsheet cells are Lean `String`s (pandas `astype(str)` has already
  happened for DOI cells; a `Link to PDF` cell is `Option String`, `none`
  standing for `NaN` or a non-string value);
* HTTP traffic is modelled by the observable response (status,
  content-type header, body bytes) or a raised exception;
* the file system at the single destination path is `Option (List Nat)`
  (absent, or present with the given byte content);
* Python truthiness of the optional URL strings is modelled explicitly
  (`None` and `""` are falsy).
-/

namespace Cadima

/-! ## Reference Extractor (`read_references`, lines 31-56) -/

/-- One input spreadsheet row: the DOI cell (as a string, as produced by
`astype(str)`) and the `Link to PDF` cell (`none` when the column is
absent, the cell is `NaN`, or the value is not a string). -/
structure Row where
  doiCell : String
  linkCell : Option String

/-- Python `str.strip()` on the character list: drop whitespace from
both ends. (Executable counterpart of the core library's trim, which
does not reduce definitionally.) -/
def trimChars (l : List Char) : List Char :=
  ((l.dropWhile Char.isWhitespace).reverse.dropWhile Char.isWhitespace).reverse

/-- Python `str.strip()`. -/
def trimStr (s : String) : String := String.mk (trimChars s.data)

/-- `pat` begins `s`, character-wise. -/
def isPreChars : List Char → List Char → Bool
  | [], _ => true
  | _ :: _, [] => false
  | p :: ps, c :: cs => p == c && isPreChars ps cs

/-- Python `s.startswith(pat)`. -/
def startsWithStr (s pat : String) : Bool := isPreChars pat.data s.data

/-- Python `s.lower()` (ASCII case folding, which is all the program's
content-type and URL data uses). -/
def lowerStr (s : String) : String := String.mk (s.data.map Char.toLower)

/-- Python `doi.replace('/', '_')` — the pattern is a single character,
so this is a character map. -/
def replaceSlash (s : String) : String :=
  String.mk (s.data.map (fun c => if c = '/' then '_' else c))

/-- Core of the regex `10\.\d{4,}[/.].+` after the literal `10.`:
a maximal run of at least 4 digits, then `/` or `.`, then a greedy
nonempty run of non-newline characters. Returns the matched characters
after `10.`, or `none`. Mirrors Python `re` semantics on this pattern
(no backtracking can help, since the character after the digit run is
never itself a digit). -/
def matchCore (rest : List Char) : Option (List Char) :=
  let ds := rest.takeWhile Char.isDigit
  let r2 := rest.dropWhile Char.isDigit
  if 4 ≤ ds.length then
    match r2 with
    | [] => none
    | c :: r3 =>
      if c = '/' ∨ c = '.' then
        let t := r3.takeWhile (fun x => x != '\n')
        if t = [] then none else some (ds ++ c :: t)
      else none
  else none

/-- Attempt to match the regex `10\.\d{4,}[/.].+` at the head of `s`,
returning the (greedy) matched characters. -/
def matchAt (s : List Char) : Option (List Char) :=
  match s with
  | a :: b :: d :: rest =>
    if a = '1' ∧ b = '0' ∧ d = '.' then
      (matchCore rest).map (fun m => a :: b :: d :: m)
    else none
  | _ => none

/-- `re.search` semantics: the match at the leftmost position where one
exists (pandas `str.extract` returns the first match's group). -/
def searchDOI : List Char → Option (List Char)
  | [] => none
  | a :: tl =>
    match matchAt (a :: tl) with
    | some m => some m
    | none => searchDOI tl

/-- Lines 32-36: strip the cell, then extract the DOI-shaped substring
`10\.\d{4,}[/.].+` (first match, whole group); `none` models `dropna`. -/
def extractDOI (cell : String) : Option String :=
  (searchDOI (trimChars cell.data)).map String.mk

/-- Lines 42-50: keep a `Link to PDF` cell only when it is a string
whose stripped value is nonempty and starts with `http://` or
`https://`; the kept value is the stripped string. -/
def cleanLink : Option String → Option String
  | none => none
  | some link =>
    let l := trimStr link
    if (decide (l ≠ "")) && (startsWithStr l "http://" || startsWithStr l "https://") then
      some l
    else none

/-- Lines 31-56 combined: the retained `(DOI, fallback URL)` pairs, in
row order, dropping rows whose DOI cell has no match. The link at
position `i` comes from the same row as the DOI at position `i`
(the Python code selects `link_to_pdf[dois.index]`). -/
def extractRefs (rows : List Row) : List (String × Option String) :=
  rows.filterMap (fun r => (extractDOI r.doiCell).map (fun d => (d, cleanLink r.linkCell)))

/-! Declarative rendering of the pattern `10\.\d{4,}[/.].+`, used to
state claim C5 independently of the executable matcher. -/

/-- A character list matches `\d{4,}[/.].+` as a whole. -/
def MatchesCore (m : List Char) : Prop :=
  ∃ ds c t, m = ds ++ c :: t ∧ (∀ x ∈ ds, x.isDigit = true) ∧ 4 ≤ ds.length ∧
    (c = '/' ∨ c = '.') ∧ t ≠ [] ∧ ∀ x ∈ t, x ≠ '\n'

/-- A character list matches the full pattern `10\.\d{4,}[/.].+`. -/
def MatchesPat (m : List Char) : Prop :=
  ∃ m0, m = '1' :: '0' :: '.' :: m0 ∧ MatchesCore m0

/-- Some string matching the pattern starts at position `i` of `s`. -/
def MatchOccursAt (s : List Char) (i : Nat) : Prop :=
  ∃ m q, MatchesPat m ∧ s.drop i = m ++ q

/-! ## Fetcher/Validator (`download_pdf`, lines 122-178) -/

/-- The observable part of an HTTP response: status code, raw
`content-type` header (`""` when absent), body bytes. -/
structure HttpResponse where
  status : Nat
  contentType : String
  body : List Nat
deriving DecidableEq

/-- What `requests.get` does inside `download_pdf`: either raises, or
yields a response. -/
inductive FetchEvent where
  | exn (msg : String)
  | resp (r : HttpResponse)
deriving DecidableEq

/-- Terminal outcome of `download_pdf`: the returned pair and the file
left at the destination path. -/
structure DownloadResult where
  success : Bool
  message : String
  file : Option (List Nat)
deriving DecidableEq

/-- The bytes `b'%PDF'`. -/
def pdfSig : List Nat := [37, 80, 68, 70]

/-- Line 137. -/
def allowedTypes : List String := ["pdf", "octet-stream", "binary", "download"]

/-- `pat` occurs as a contiguous substring of `s` (Python `pat in s`). -/
def hasSubChars (pat : List Char) : List Char → Bool
  | [] => pat.isEmpty
  | c :: cs => isPreChars pat (c :: cs) || hasSubChars pat cs

/-- Python `pat in s` on strings. -/
def containsSub (pat s : String) : Bool := hasSubChars pat.toList s.toList

/-- Line 138: the lowered content-type contains one of the markers. -/
def ctAllowed (contentType : String) : Bool :=
  allowedTypes.any (fun t => containsSub t (lowerStr contentType))

/-- `download_pdf(url, save_path)` (lines 122-178), as a function of the
file initially at `save_path`, the HTTP event, and whether the advisory
signature check's own I/O succeeds (`sigCheckOk = false` models the bare
`except:` at line 168). -/
def download_pdf (init : Option (List Nat)) (ev : FetchEvent) (sigCheckOk : Bool) :
    DownloadResult :=
  match ev with
  | .exn e =>
    { success := false, message := "Download error: " ++ e, file := none }
  | .resp r =>
    if r.status = 200 then
      if !(ctAllowed r.contentType) then
        if 1000 < r.body.length then
          { success := true
            message := "Successfully downloaded (unknown content type)"
            file := some r.body }
        else
          { success := false
            message := "Not a PDF file (content-type: " ++ lowerStr r.contentType ++ ")"
            file := init }
      else
        if r.body.length < 1000 then
          { success := false, message := "Downloaded file too small", file := none }
        else
          if sigCheckOk then
            if r.body.take 4 = pdfSig then
              { success := true, message := "Successfully downloaded", file := some r.body }
            else
              { success := false, message := "Not a valid PDF file", file := none }
          else
            { success := true
              message := "Successfully downloaded (signature check failed)"
              file := some r.body }
    else
      { success := false, message := "HTTP error: " ++ toString r.status, file := init }

/-- The unknown-content-type path of `download_pdf` was available for
this event: a 200 response whose content-type contains none of the
accepted markers (lines 138-139). -/
def unknownCT : FetchEvent → Bool
  | .exn _ => false
  | .resp r => (decide (r.status = 200)) && !(ctAllowed r.contentType)

/-! ## HTTP request configurations (call sites of `requests.get`) -/

/-- The static configuration of one `requests.get` call site: the
`timeout` argument in seconds (`none` = the `requests` default of no
timeout at all). -/
structure RequestPolicy where
  timeoutSeconds : Option Nat
deriving DecidableEq

/-- Line 67: `requests.get(url, params=..., headers=..., timeout=10)`. -/
def unpaywallRequest : RequestPolicy := { timeoutSeconds := some 10 }

/-- Line 100: `requests.get(f"{url}{doi}")` — no `timeout` argument. -/
def pubmedRequest : RequestPolicy := { timeoutSeconds := none }

/-- Line 129: `requests.get(url, stream=True, timeout=30, headers=...)`. -/
def downloadRequest : RequestPolicy := { timeoutSeconds := some 30 }

/-! ## Resolver chain and run orchestrator (`main`, lines 180-277) -/

/-- Python truthiness of an optional string (`None` and `""` falsy). -/
def strTruthy : Option String → Bool
  | none => false
  | some s => decide (s ≠ "")

/-- The two lookup services, abstracted by their observable results:
the URL each returns for a DOI (`none` = Python `None`). The real
`search_unpaywall`/`search_pubmed` never return an empty string (they
only return a URL found truthy). -/
structure Services where
  unpaywall : String → Option String
  pubmed : String → Option String

/-- Lines 220-223: the ordered list of `(source, search_func)` pairs. -/
def serviceList (svc : Services) : List (String × (String → Option String)) :=
  [("Unpaywall", svc.unpaywall), ("PubMed", svc.pubmed)]

/-- The `for source, search_func in [...]` loop (lines 220-232).
Returns the final value of `pdf_url` (the last assigned result), the
recorded `Source` (set only at `break`), and the list of services
actually consulted, in order. -/
def chainLoop (doi : String) : List (String × (String → Option String)) →
    Option String × Option String × List String
  | [] => (none, none, [])
  | (name, f) :: rest =>
    let r := f doi
    if strTruthy r then (r, some name, [name])
    else
      match rest with
      | [] => (r, none, [name])
      | _ :: _ =>
        let z := chainLoop doi rest
        (z.1, z.2.1, name :: z.2.2)

/-- One row of `results.csv` (lines 209-216 initialise it; every branch
overwrites `Download_Status` before the row is appended). -/
structure RefReport where
  DOI : String
  PDF_Found : Bool
  Source : Option String
  Download_Status : String
  File_Path : Option String
  Error_Message : Option String
deriving DecidableEq

/-- Lines 241-250: a URL was obtained; build the filename, download,
and record the outcome. `dl url filename` abstracts
`download_pdf(url, filename)`. -/
def attemptDownload (dl : String → String → Bool × String) (doi url source : String) :
    RefReport :=
  let filename := "pdfs/" ++ replaceSlash doi ++ ".pdf"
  let r := dl url filename
  { DOI := doi
    PDF_Found := true
    Source := some source
    Download_Status := if r.1 then "Success" else "Failed"
    File_Path := if r.1 then some filename else none
    Error_Message := if r.1 then none else some r.2 }

/-- Lines 251-255: no URL was obtained. -/
def noUrlReport (doi : String) : RefReport :=
  { DOI := doi
    PDF_Found := false
    Source := none
    Download_Status := "Failed"
    File_Path := none
    Error_Message := some "No PDF URL found" }

/-- Lines 207-257: process one `(doi, pdf_link)` pair: resolver chain,
then the Excel-link fallback, then the download (or the no-URL report). -/
def processOne (svc : Services) (dl : String → String → Bool × String)
    (doi : String) (pdfLink : Option String) : RefReport :=
  let z := chainLoop doi (serviceList svc)
  if strTruthy z.1 then
    attemptDownload dl doi (z.1.getD "") (z.2.1.getD "")
  else if strTruthy pdfLink then
    attemptDownload dl doi (pdfLink.getD "") "Excel Link"
  else
    noUrlReport doi

/-- Line 194. -/
def testDOI : String := "10.1038/s41586-020-2649-2"

/-- Lines 193-198 acting on the extracted pairs: append the test DOI
(with no fallback link) when it is not already among the DOIs. -/
def withTest (refs : List (String × Option String)) : List (String × Option String) :=
  if testDOI ∈ refs.map Prod.fst then refs else refs ++ [(testDOI, none)]

/-- Lines 193-198 as written: the two parallel lists. -/
def addTestDOI (p : List String × List (Option String)) :
    List String × List (Option String) :=
  if testDOI ∈ p.1 then p else (p.1 ++ [testDOI], p.2 ++ [none])

/-- One whole run of `main` after `read_references`: add the test DOI,
then `for doi, pdf_link in zip(references, pdf_links)` producing the
ordered report rows. -/
def runAll (svc : Services) (dl : String → String → Bool × String) (rows : List Row) :
    List RefReport :=
  let refs := extractRefs rows
  let p := addTestDOI (refs.map Prod.fst, refs.map Prod.snd)
  (p.1.zip p.2).map (fun x => processOne svc dl x.1 x.2)

/-- A run in which neither lookup service ever finds anything. -/
def svcNone : Services := { unpaywall := fun _ => none, pubmed := fun _ => none }

/-- A lookup oracle that always answers with one fixed Unpaywall URL. -/
def svcA : Services :=
  { unpaywall := fun _ => some "http://a.example/x.pdf", pubmed := fun _ => none }

/-- A downloader that always fails (e.g. no network). -/
def dlNever : String → String → Bool × String := fun _ _ => (false, "no network")

/-- The downloader induced by one fixed HTTP event: every download in
the run hits that response, starting from an absent file. -/
def dlFromEvent (ev : FetchEvent) (sigCheckOk : Bool) : String → String → Bool × String :=
  fun _ _ => ((download_pdf none ev sigCheckOk).success, (download_pdf none ev sigCheckOk).message)

/-- A 1001-byte body of zeros: large enough for the
unknown-content-type path, but with no `%PDF` signature. -/
def badBody : List Nat := List.replicate 1001 0

/-! ## Helper lemmas -/

theorem takeWhile_middle (p : Char → Bool) (ds : List Char) (c : Char) (u : List Char)
    (h1 : ∀ x ∈ ds, p x = true) (h2 : p c = false) :
    (ds ++ c :: u).takeWhile p = ds ∧ (ds ++ c :: u).dropWhile p = c :: u := by
  induction ds with
  | nil => simp [List.takeWhile_cons, List.dropWhile_cons, h2]
  | cons a as ih =>
    have ha : p a = true := h1 a (by simp)
    have h' := ih (fun x hx => h1 x (by simp [hx]))
    simp [List.takeWhile_cons, List.dropWhile_cons, ha, h'.1, h'.2]

theorem takeWhile_append_all (p : Char → Bool) (t q : List Char)
    (h : ∀ x ∈ t, p x = true) :
    (t ++ q).takeWhile p = t ++ q.takeWhile p := by
  induction t with
  | nil => simp
  | cons a as ih =>
    have ha : p a = true := h a (by simp)
    simp [List.takeWhile_cons, ha, ih (fun x hx => h x (by simp [hx]))]

theorem matchCore_sound {rest m : List Char} (h : matchCore rest = some m) :
    MatchesCore m ∧ ∃ q, rest = m ++ q := by
  simp only [matchCore] at h
  split at h
  case isTrue h4 =>
    split at h
    case h_1 => exact absurd h (by simp)
    case h_2 c r3 heq =>
      split at h
      case isTrue hc =>
        split at h
        case isTrue ht => exact absurd h (by simp)
        case isFalse ht =>
          have hm := (Option.some.injEq _ _).mp h
          have e1 : rest.takeWhile Char.isDigit ++ rest.dropWhile Char.isDigit = rest :=
            List.takeWhile_append_dropWhile _ _
          have e2 : r3.takeWhile (fun x => x != '\n') ++
              r3.dropWhile (fun x => x != '\n') = r3 :=
            List.takeWhile_append_dropWhile _ _
          constructor
          · refine ⟨rest.takeWhile Char.isDigit, c, r3.takeWhile (fun x => x != '\n'),
              hm.symm, ?_, h4, hc, ht, ?_⟩
            · exact fun x hx => List.mem_takeWhile_imp hx
            · intro x hx
              have := List.mem_takeWhile_imp hx
              simpa using this
          · refine ⟨r3.dropWhile (fun x => x != '\n'), ?_⟩
            calc rest = rest.takeWhile Char.isDigit ++ rest.dropWhile Char.isDigit := e1.symm
              _ = rest.takeWhile Char.isDigit ++ (c :: r3) := by rw [heq]
              _ = rest.takeWhile Char.isDigit ++
                    (c :: (r3.takeWhile (fun x => x != '\n') ++
                      r3.dropWhile (fun x => x != '\n'))) := by rw [e2]
              _ = (rest.takeWhile Char.isDigit ++ c :: r3.takeWhile (fun x => x != '\n')) ++
                    r3.dropWhile (fun x => x != '\n') := by simp
              _ = m ++ r3.dropWhile (fun x => x != '\n') := by rw [hm]
      case isFalse hc => exact absurd h (by simp)
  case isFalse => exact absurd h (by simp)

theorem matchCore_run {ds1 t1 q1 : List Char} {c1 : Char}
    (hds : ∀ x ∈ ds1, x.isDigit = true) (h4 : 4 ≤ ds1.length)
    (hc : c1 = '/' ∨ c1 = '.') (ht1 : t1 ≠ []) (hnl : ∀ x ∈ t1, x ≠ '\n') :
    ∃ t2, matchCore (ds1 ++ c1 :: (t1 ++ q1)) = some (ds1 ++ c1 :: t2) ∧
      t1.length ≤ t2.length := by
  have hcd : Char.isDigit c1 = false := by
    rcases hc with h | h <;> subst h <;> decide
  have hmid := takeWhile_middle Char.isDigit ds1 c1 (t1 ++ q1) hds hcd
  have hnlb : ∀ x ∈ t1, (x != '\n') = true := fun x hx => by simpa using hnl x hx
  have htw := takeWhile_append_all (fun x => x != '\n') t1 q1 hnlb
  refine ⟨t1 ++ q1.takeWhile (fun x => x != '\n'), ?_, by simp⟩
  simp only [matchCore, hmid.1, hmid.2, htw]
  rw [if_pos h4, if_pos hc, if_neg (by simp [ht1])]

theorem matchAt_sound {s m : List Char} (h : matchAt s = some m) :
    MatchesPat m ∧ ∃ q, s = m ++ q := by
  unfold matchAt at h
  split at h
  case h_1 a b d rest =>
    split at h
    case isTrue habd =>
      obtain ⟨ha, hb, hd⟩ := habd
      subst ha; subst hb; subst hd
      rcases Option.map_eq_some'.mp h with ⟨m0, hm0, hmm⟩
      obtain ⟨hc, q, hq⟩ := matchCore_sound hm0
      subst hmm
      exact ⟨⟨m0, rfl, hc⟩, ⟨q, by simp [hq]⟩⟩
    case isFalse => exact absurd h (by simp)
  case h_2 => exact absurd h (by simp)

theorem matchAt_run {s m1 q1 : List Char} (hm : MatchesPat m1) (hs : s = m1 ++ q1) :
    ∃ m, matchAt s = some m ∧ m1.length ≤ m.length := by
  obtain ⟨m0, hm0, ds1, c1, t1, hcore, hds, h4, hc, ht1, hnl⟩ := hm
  subst hm0
  subst hcore
  obtain ⟨t2, hrun, hlen⟩ := @matchCore_run ds1 t1 q1 c1 hds h4 hc ht1 hnl
  have hs' : s = '1' :: '0' :: '.' :: (ds1 ++ c1 :: (t1 ++ q1)) := by
    rw [hs]; simp
  refine ⟨'1' :: '0' :: '.' :: (ds1 ++ c1 :: t2), ?_, ?_⟩
  · rw [hs']
    simp [matchAt, hrun]
  · simp
    omega

theorem matchAt_max {s m m1 q1 : List Char} (h : matchAt s = some m)
    (hm1 : MatchesPat m1) (hs : s = m1 ++ q1) : m1.length ≤ m.length := by
  obtain ⟨m', hrun, hlen⟩ := matchAt_run hm1 hs
  rw [h] at hrun
  have he := (Option.some.injEq _ _).mp hrun
  rw [← he] at hlen
  exact hlen

theorem searchDOI_sound {s m : List Char} (h : searchDOI s = some m) :
    ∃ i, matchAt (s.drop i) = some m ∧ ∀ j, j < i → matchAt (s.drop j) = none := by
  induction s with
  | nil => simp [searchDOI] at h
  | cons a tl ih =>
    simp only [searchDOI] at h
    cases hma : matchAt (a :: tl) with
    | some m' =>
      simp only [hma] at h
      refine ⟨0, ?_, ?_⟩
      · simpa [hma] using h
      · intro j hj; omega
    | none =>
      simp only [hma] at h
      obtain ⟨i, h1, h2⟩ := ih h
      refine ⟨i + 1, ?_, ?_⟩
      · simpa [List.drop_succ_cons] using h1
      · intro j hj
        cases j with
        | zero => simpa using hma
        | succ j' => simpa [List.drop_succ_cons] using h2 j' (by omega)

theorem searchDOI_none {s : List Char} (h : searchDOI s = none) :
    ∀ i, matchAt (s.drop i) = none := by
  induction s with
  | nil => intro i; simp [matchAt]
  | cons a tl ih =>
    simp only [searchDOI] at h
    cases hma : matchAt (a :: tl) with
    | some m' => simp [hma] at h
    | none =>
      simp only [hma] at h
      intro i
      cases i with
      | zero => simpa using hma
      | succ i' => simpa [List.drop_succ_cons] using ih h i'

theorem matchOccurs_iff {s : List Char} {i : Nat} :
    MatchOccursAt s i ↔ (matchAt (s.drop i)).isSome = true := by
  constructor
  · rintro ⟨m, q, hm, hq⟩
    obtain ⟨m', h', _⟩ := matchAt_run hm hq
    simp [h']
  · intro h
    rcases ho : matchAt (s.drop i) with _ | m
    · simp [ho] at h
    · obtain ⟨hm, q, hq⟩ := matchAt_sound ho
      exact ⟨m, q, hm, hq⟩

theorem processOne_DOI (svc : Services) (dl : String → String → Bool × String)
    (doi : String) (link : Option String) : (processOne svc dl doi link).DOI = doi := by
  simp only [processOne]
  split
  · rfl
  · split <;> rfl

theorem runAll_eq (svc : Services) (dl : String → String → Bool × String) (rows : List Row) :
    runAll svc dl rows = (withTest (extractRefs rows)).map (fun (p : String × Option String) => processOne svc dl p.1 p.2) := by
  unfold runAll addTestDOI withTest
  by_cases hm : testDOI ∈ (extractRefs rows).map Prod.fst
  · simp only [hm, if_true]
    rw [List.zip_map']
    simp
  · simp only [hm, if_false]
    have h1 : (extractRefs rows).map Prod.fst ++ [testDOI] =
        ((extractRefs rows) ++ [(testDOI, none)]).map Prod.fst := by simp
    have h2 : (extractRefs rows).map Prod.snd ++ [(none : Option String)] =
        ((extractRefs rows) ++ [(testDOI, none)]).map Prod.snd := by simp
    rw [h1, h2, List.zip_map']
    simp

theorem runAll_doiMap (svc : Services) (dl : String → String → Bool × String) (rows : List Row) :
    (runAll svc dl rows).map RefReport.DOI = (withTest (extractRefs rows)).map Prod.fst := by
  rw [runAll_eq, List.map_map]
  simp [Function.comp_def, processOne_DOI]

/-! ## Claims -/

set_option maxRecDepth 8000 in
/-- C2 (corrected): on the unknown-content-type path, a 200 response
with content-type `text/html` and a 1001-byte body of zeros is written
to the destination and reported as `Success`, although the file does
not begin with `%PDF` and the advisory signature-check path was not
taken (`sigCheckOk = true`). This refutes "either no file exists, or
the file ... begins with %PDF (the sole exception being the advisory
signature-check I/O-error path)" and "Success implies ... starts with
%PDF". -/
theorem C2_refutation :
    (download_pdf none (.resp ⟨200, "text/html", badBody⟩) true).success = true ∧
    (download_pdf none (.resp ⟨200, "text/html", badBody⟩) true).file = some badBody ∧
    1000 ≤ badBody.length ∧ badBody.take 4 ≠ pdfSig := by
  refine ⟨by decide, by decide, by decide, by decide⟩

/-- C2 (amended): starting from an absent destination file, at every
terminal outcome of `download_pdf` either no file exists, or the file
is at least 1000 bytes; it moreover begins with `%PDF` except on two
paths — the advisory signature-check I/O-error path
(`sigCheckOk = false`) and the unknown-content-type path (200 response
whose content-type contains none of the accepted markers). A `Success`
outcome always leaves a file. -/
theorem C2_validator_invariant (ev : FetchEvent) (sig : Bool) :
    (∀ c, (download_pdf none ev sig).file = some c → 1000 ≤ c.length) ∧
    ((download_pdf none ev sig).success = true → (download_pdf none ev sig).file.isSome = true) ∧
    (∀ c, (download_pdf none ev sig).file = some c → sig = true → unknownCT ev = false →
      c.take 4 = pdfSig) := by
  cases ev with
  | exn e => simp [download_pdf]
  | resp r =>
    by_cases h200 : r.status = 200
    · by_cases hct : ctAllowed r.contentType
      · by_cases hsmall : r.body.length < 1000
        · simp [download_pdf, h200, hct, hsmall]
        · by_cases hsig : sig
          · by_cases hpdf : r.body.take 4 = pdfSig
            · refine ⟨?_, ?_, ?_⟩ <;>
                simp [download_pdf, h200, hct, hsmall, hsig, hpdf]
              omega
            · simp [download_pdf, h200, hct, hsmall, hsig, hpdf]
          · refine ⟨?_, ?_, ?_⟩ <;>
              simp [download_pdf, h200, hct, hsmall, hsig]
            omega
      · by_cases hbig : 1000 < r.body.length
        · refine ⟨?_, ?_, ?_⟩
          · simp [download_pdf, h200, hct, hbig]; omega
          · simp [download_pdf, h200, hct, hbig]
          · intro c _ _ hu
            exfalso
            simp [unknownCT, h200, hct] at hu
        · simp [download_pdf, h200, hct, hbig]
    · simp [download_pdf, h200]

set_option maxRecDepth 8000 in
/-- C2 witness: a 200 `application/pdf` response whose 1000-byte body
starts with `%PDF` satisfies the invariant's conclusions. -/
theorem C2_validator_invariant_witness :
    1000 ≤ (pdfSig ++ List.replicate 996 32).length ∧
    (pdfSig ++ List.replicate 996 32).take 4 = pdfSig := by
  have h := C2_validator_invariant
    (.resp ⟨200, "application/pdf", pdfSig ++ List.replicate 996 32⟩) true
  exact ⟨h.1 (pdfSig ++ List.replicate 996 32) (by decide),
    h.2.2 (pdfSig ++ List.replicate 996 32) (by decide) rfl (by decide)⟩

/-- C3 (confirmed): the chain tries Unpaywall before PubMed; a truthy
Unpaywall URL short-circuits the loop, PubMed is never consulted, the
source is tagged `Unpaywall`, and the orchestrator downloads from that
URL whatever the fallback link is. -/
theorem C3_priority (svc : Services) (doi u : String)
    (h1 : svc.unpaywall doi = some u) (h2 : u ≠ "") :
    chainLoop doi (serviceList svc) = (some u, some "Unpaywall", ["Unpaywall"]) ∧
    "PubMed" ∉ (chainLoop doi (serviceList svc)).2.2 ∧
    ∀ dl link, processOne svc dl doi link = attemptDownload dl doi u "Unpaywall" := by
  have ht : strTruthy (some u) = true := by simp [strTruthy, h2]
  have hc : chainLoop doi (serviceList svc) = (some u, some "Unpaywall", ["Unpaywall"]) := by
    simp [chainLoop, serviceList, h1, ht]
  refine ⟨hc, ?_, ?_⟩
  · rw [hc]; simp
  · intro dl link
    simp [processOne, hc, ht]

/-- C3 witness at a concrete oracle. -/
theorem C3_priority_witness :
    chainLoop "10.1/x" (serviceList svcA) =
      (some "http://a.example/x.pdf", some "Unpaywall", ["Unpaywall"]) ∧
    "PubMed" ∉ (chainLoop "10.1/x" (serviceList svcA)).2.2 ∧
    ∀ dl link, processOne svcA dl "10.1/x" link =
      attemptDownload dl "10.1/x" "http://a.example/x.pdf" "Unpaywall" :=
  C3_priority svcA "10.1/x" "http://a.example/x.pdf" rfl (by decide)

set_option maxRecDepth 2000 in
/-- C4 (confirmed): a non-200 response makes `download_pdf` fail with
message `HTTP error: {status}` and leaves the destination untouched;
through the orchestrator a 404 yields `Download_Status = "Failed"` and
`Error_Message = "HTTP error: 404"`. -/
theorem C4_non200 (init : Option (List Nat)) (r : HttpResponse) (sig : Bool)
    (h : r.status ≠ 200) :
    download_pdf init (.resp r) sig =
      { success := false, message := "HTTP error: " ++ toString r.status, file := init } ∧
    processOne svcA (dlFromEvent (.resp ⟨404, "", []⟩) true) "10.1234/abc" none =
      { DOI := "10.1234/abc", PDF_Found := true, Source := some "Unpaywall",
        Download_Status := "Failed", File_Path := none,
        Error_Message := some "HTTP error: 404" } := by
  refine ⟨by simp [download_pdf, h], by decide⟩

/-- C4 witness at status 404. -/
theorem C4_non200_witness :
    download_pdf none (.resp ⟨404, "", []⟩) true =
      { success := false, message := "HTTP error: 404", file := none } :=
  (C4_non200 none ⟨404, "", []⟩ true (by decide)).1

/-- C7 (confirmed): on a 200 response whose content-type contains none
of `pdf`, `octet-stream`, `binary`, `download` — if the body exceeds
1000 bytes it is written anyway and the call succeeds with the
unknown-content-type caveat; otherwise the call fails and the
destination is untouched. -/
theorem C7_unknown_content_type (init : Option (List Nat)) (r : HttpResponse) (sig : Bool)
    (h200 : r.status = 200) (hct : ctAllowed r.contentType = false) :
    (1000 < r.body.length →
      download_pdf init (.resp r) sig =
        { success := true, message := "Successfully downloaded (unknown content type)",
          file := some r.body }) ∧
    (¬ 1000 < r.body.length →
      download_pdf init (.resp r) sig =
        { success := false,
          message := "Not a PDF file (content-type: " ++ lowerStr r.contentType ++ ")",
          file := init }) := by
  constructor <;> intro h <;> simp [download_pdf, h200, hct, h]

set_option maxRecDepth 8000 in
/-- C7 witness: `text/html` with a 1001-byte body succeeds with the
caveat; with a 10-byte body it fails and writes nothing. -/
theorem C7_unknown_content_type_witness :
    download_pdf none (.resp ⟨200, "text/html", List.replicate 1001 7⟩) true =
      { success := true, message := "Successfully downloaded (unknown content type)",
        file := some (List.replicate 1001 7) } ∧
    download_pdf none (.resp ⟨200, "text/html", List.replicate 10 7⟩) true =
      { success := false, message := "Not a PDF file (content-type: text/html)",
        file := none } :=
  ⟨(C7_unknown_content_type none ⟨200, "text/html", List.replicate 1001 7⟩ true rfl
      (by decide)).1 (by decide),
   (C7_unknown_content_type none ⟨200, "text/html", List.replicate 10 7⟩ true rfl
      (by decide)).2 (by decide)⟩

/-- C8 (corrected, counterexample): the PubMed lookup at line 100 is
issued with no `timeout` argument at all (the `requests` default of no
timeout), so not every request has a bounded per-request timeout. -/
theorem C8_refutation : pubmedRequest.timeoutSeconds = none := rfl

/-- C8 (amended): the Unpaywall lookup carries a bounded 10-second
timeout and the download a longer bounded 30-second timeout, but the
PubMed lookup is issued without any timeout and may block
indefinitely. -/
theorem C8_timeouts :
    unpaywallRequest.timeoutSeconds = some 10 ∧
    downloadRequest.timeoutSeconds = some 30 ∧
    pubmedRequest.timeoutSeconds = none ∧
    (10 : Nat) < 30 := by
  refine ⟨rfl, rfl, rfl, by decide⟩

/-- C9 (confirmed): when neither service yields a truthy URL and a
fallback URL was extracted from the spreadsheet, the orchestrator
downloads from that URL directly and tags the source `Excel Link`,
which differs from both service tags. -/
theorem C9_excel_fallback (svc : Services) (doi l : String)
    (h1 : strTruthy (svc.unpaywall doi) = false)
    (h2 : strTruthy (svc.pubmed doi) = false) (h3 : l ≠ "") :
    ∀ dl, processOne svc dl doi (some l) = attemptDownload dl doi l "Excel Link" ∧
      (processOne svc dl doi (some l)).Source = some "Excel Link" ∧
      ("Excel Link" : String) ≠ "Unpaywall" ∧ ("Excel Link" : String) ≠ "PubMed" := by
  have hc : chainLoop doi (serviceList svc) = (svc.pubmed doi, none, ["Unpaywall", "PubMed"]) := by
    simp [chainLoop, serviceList, h1, h2]
  have hl : strTruthy (some l) = true := by simp [strTruthy, h3]
  intro dl
  have hp : processOne svc dl doi (some l) = attemptDownload dl doi l "Excel Link" := by
    simp [processOne, hc, h2, hl]
  refine ⟨hp, ?_, by decide, by decide⟩
  rw [hp]; simp [attemptDownload]

/-- C9 witness at concrete oracles. -/
theorem C9_excel_fallback_witness :
    processOne svcNone dlNever "10.1/x" (some "http://e.example/p.pdf") =
      attemptDownload dlNever "10.1/x" "http://e.example/p.pdf" "Excel Link" ∧
    (processOne svcNone dlNever "10.1/x" (some "http://e.example/p.pdf")).Source =
      some "Excel Link" ∧
    ("Excel Link" : String) ≠ "Unpaywall" ∧ ("Excel Link" : String) ≠ "PubMed" :=
  C9_excel_fallback svcNone "10.1/x" "http://e.example/p.pdf" rfl rfl (by decide) dlNever

/-- C10 (confirmed): after extraction, `main` appends the hardcoded
DOI `10.1038/s41586-020-2649-2` (with no fallback link) exactly when it
is not already among the extracted DOIs, so that DOI is processed and
appears in the final report of every run. -/
theorem C10_test_doi (svc : Services) (dl : String → String → Bool × String) (rows : List Row) :
    testDOI ∈ (runAll svc dl rows).map RefReport.DOI ∧
    (testDOI ∉ (extractRefs rows).map Prod.fst →
      runAll svc dl rows =
        ((extractRefs rows) ++ [(testDOI, none)]).map (fun (p : String × Option String) => processOne svc dl p.1 p.2)) ∧
    (testDOI ∈ (extractRefs rows).map Prod.fst →
      runAll svc dl rows = (extractRefs rows).map (fun (p : String × Option String) => processOne svc dl p.1 p.2)) := by
  refine ⟨?_, ?_, ?_⟩
  · rw [runAll_doiMap]
    unfold withTest
    split_ifs with hm
    · exact hm
    · simp
  · intro hm
    rw [runAll_eq]
    unfold withTest
    simp [hm]
  · intro hm
    rw [runAll_eq]
    unfold withTest
    simp [hm]

/-- C10 witness: the empty spreadsheet still yields the test DOI's row. -/
theorem C10_test_doi_witness :
    runAll svcNone dlNever [] =
      ((extractRefs ([] : List Row)) ++ [(testDOI, none)]).map
        (fun (p : String × Option String) => processOne svcNone dlNever p.1 p.2) :=
  (C10_test_doi svcNone dlNever []).2.1 (by decide)

/-- C1 (corrected, counterexample): on an empty spreadsheet the report
has one row (the injected test DOI) while the accepted-reference count
is zero, so the report row count does not equal the accepted count. -/
theorem C1_refutation :
    (runAll svcNone dlNever []).length ≠ (extractRefs ([] : List Row)).length ∧
    (runAll svcNone dlNever []).length = 1 ∧
    (extractRefs ([] : List Row)).length = 0 := by
  refine ⟨by decide, rfl, rfl⟩

/-- C1 (amended): the report contains exactly one row per processed
reference, in order: the accepted input references in input order
(always an initial segment of the report), followed by the hardcoded
test DOI when it is not among them; the row count is the accepted count
plus one in that case, and equals the accepted count otherwise. -/
theorem C1_report_rows (svc : Services) (dl : String → String → Bool × String)
    (rows : List Row) :
    (runAll svc dl rows).map RefReport.DOI = (withTest (extractRefs rows)).map Prod.fst ∧
    (∃ t, (extractRefs rows).map Prod.fst ++ t = (runAll svc dl rows).map RefReport.DOI) ∧
    (runAll svc dl rows).length =
      (extractRefs rows).length +
        (if testDOI ∈ (extractRefs rows).map Prod.fst then 0 else 1) := by
  refine ⟨runAll_doiMap svc dl rows, ?_, ?_⟩
  · rw [runAll_doiMap]
    unfold withTest
    split_ifs with hm
    · exact ⟨[], by simp⟩
    · exact ⟨[testDOI], by simp⟩
  · have hl : (runAll svc dl rows).length = (withTest (extractRefs rows)).length := by
      have h := congrArg List.length (runAll_doiMap svc dl rows)
      simpa using h
    rw [hl]
    unfold withTest
    split_ifs with hm <;> simp

/-- C5 (confirmed): a row's DOI cell is retained exactly when its
stripped contents contain a substring matching `10\.\d{4,}[/.].+`, and
the retained DOI is the leading match: it starts at the leftmost
position where any match starts, and among the matches at that position
it is the longest (the greedy one). Rows with no match yield `none` and
so are dropped from `extractRefs` with no failure record. -/
theorem C5_doi_extraction (cell : String) :
    ((extractDOI cell).isSome = true ↔ ∃ i, MatchOccursAt (trimChars cell.data) i) ∧
    (∀ d, extractDOI cell = some d →
      MatchesPat d.data ∧
      ∃ i, (∃ q, (trimChars cell.data).drop i = d.data ++ q) ∧
        (∀ j, j < i → ¬ MatchOccursAt (trimChars cell.data) j) ∧
        (∀ m q, (trimChars cell.data).drop i = m ++ q → MatchesPat m →
          m.length ≤ d.data.length)) := by
  constructor
  · constructor
    · intro h
      rcases he : searchDOI (trimChars cell.data) with _ | m
      · simp [extractDOI, he] at h
      · obtain ⟨i, h1, _⟩ := searchDOI_sound he
        exact ⟨i, matchOccurs_iff.mpr (by simp [h1])⟩
    · rintro ⟨i, hocc⟩
      rcases he : searchDOI (trimChars cell.data) with _ | m
      · have hn := searchDOI_none he i
        have h2 := matchOccurs_iff.mp hocc
        simp [hn] at h2
      · simp [extractDOI, he]
  · intro d hd
    simp only [extractDOI, Option.map_eq_some'] at hd
    obtain ⟨m, hm, hmk⟩ := hd
    obtain ⟨i, h1, h2⟩ := searchDOI_sound hm
    have hms := matchAt_sound h1
    have hdm : d.data = m := by rw [← hmk]
    refine ⟨by rw [hdm]; exact hms.1, i, ?_, ?_, ?_⟩
    · obtain ⟨q, hq⟩ := hms.2
      exact ⟨q, by rw [hdm]; exact hq⟩
    · intro j hj hocc
      have hs := matchOccurs_iff.mp hocc
      simp [h2 j hj] at hs
    · intro m1 q1 hq1 hm1
      rw [hdm]
      exact matchAt_max h1 hm1 hq1

/-- C5 witness at the spec's example cell
`" 10.1038/s41586-020-2649-2 "`. -/
theorem C5_doi_extraction_witness :
    MatchesPat ("10.1038/s41586-020-2649-2" : String).data ∧
    ∃ i, (∃ q, (trimChars (" 10.1038/s41586-020-2649-2 " : String).data).drop i =
        ("10.1038/s41586-020-2649-2" : String).data ++ q) ∧
      (∀ j, j < i →
        ¬ MatchOccursAt (trimChars (" 10.1038/s41586-020-2649-2 " : String).data) j) ∧
      (∀ m q, (trimChars (" 10.1038/s41586-020-2649-2 " : String).data).drop i = m ++ q →
        MatchesPat m → m.length ≤ ("10.1038/s41586-020-2649-2" : String).data.length) :=
  (C5_doi_extraction " 10.1038/s41586-020-2649-2 ").2 "10.1038/s41586-020-2649-2" (by decide)

/-- C6 (confirmed): a fallback URL is kept exactly when the cell is a
string whose stripped value starts with `http://` or `https://` (the
kept value being the stripped string), and `extractRefs` pairs the
fallback URL at position `i` with the DOI at position `i` after
dropping the non-matching rows. -/
theorem C6_fallback_link :
    (∀ l, ((cleanLink l).isSome = true) ↔
      ∃ s, l = some s ∧
        (startsWithStr (trimStr s) "http://" = true ∨
          startsWithStr (trimStr s) "https://" = true)) ∧
    (∀ s u, cleanLink (some s) = some u → u = trimStr s) ∧
    (∀ rows : List Row,
      extractRefs rows =
        (rows.filter (fun r => (extractDOI r.doiCell).isSome)).map
          (fun r => ((extractDOI r.doiCell).getD "", cleanLink r.linkCell))) := by
  refine ⟨?_, ?_, ?_⟩
  · intro l
    cases l with
    | none => simp [cleanLink]
    | some s =>
      simp only [cleanLink]
      split_ifs with h
      · simp only [Option.isSome_some, true_iff]
        refine ⟨s, rfl, ?_⟩
        simp only [Bool.and_eq_true, Bool.or_eq_true, decide_eq_true_eq] at h
        exact h.2
      · simp only [Option.isSome_none, Bool.false_eq_true, false_iff]
        rintro ⟨s', hs, hsw⟩
        have hss : s = s' := by injection hs
        subst hss
        apply h
        simp only [Bool.and_eq_true, Bool.or_eq_true, decide_eq_true_eq]
        refine ⟨?_, hsw⟩
        intro hemp
        rcases hsw with h1 | h1 <;> rw [hemp] at h1 <;> exact absurd h1 (by decide)
  · intro s u h
    simp only [cleanLink] at h
    split_ifs at h with hcond
    exact ((Option.some.injEq _ _).mp h).symm
  · intro rows
    induction rows with
    | nil => rfl
    | cons r tl ih =>
      cases hdo : extractDOI r.doiCell with
      | none =>
        simp only [extractRefs] at ih ⊢
        simp [List.filterMap_cons, List.filter_cons, hdo, ih]
      | some d =>
        simp only [extractRefs] at ih ⊢
        simp [List.filterMap_cons, List.filter_cons, hdo, ih]

/-- C6 witness: a trailing-space `https` link is kept (stripped), an
`ftp` link is discarded. -/
theorem C6_fallback_link_witness :
    (cleanLink (some " https://pub.example/a.pdf ")).isSome = true :=
  (C6_fallback_link.1 (some " https://pub.example/a.pdf ")).mpr
    ⟨" https://pub.example/a.pdf ", rfl, Or.inr (by decide)⟩

end Cadima
